import Mathlib

/-!
Verification development for the JSON-RPC dispatch engine in
pkgs/bft/rpc/lib/server/handlers.go: a shallow embedding of the data model,
the argument binder, the dispatcher, the JSON-RPC request loop, and the
WebSocket read/write routines, together with theorems settling the spec
claims about them.
-/

namespace RpcServer

/-- A structured JSON value. Raw wire payloads (json.RawMessage) are modelled
as already-parsed structured values; the distinct outcomes of the standard
json.Unmarshal attempts the source performs are modelled per call site. -/
inductive Json where
  | null : Json
  | bool (b : Bool) : Json
  | num (n : Int) : Json
  | str (s : String) : Json
  | arr (elems : List Json) : Json
  | obj (fields : List (String × Json)) : Json

/-- types.RPCRequest: id (empty string means notification), method name, and
the raw params payload. params = none models len(request.Params) == 0, i.e.
the field was absent or empty. -/
structure RPCRequest where
  id : String
  method : String
  params : Option Json

/-- The reflect.Type tags the binder distinguishes (handlers.go switches on
rt.Kind()): integer kinds, string, byte slice, interface, pointer, the
leading types.Context argument, and any other kind. -/
inductive Ty where
  | tInt : Ty
  | tString : Ty
  | tBytes : Ty
  | tIface : Ty
  | tCtx : Ty
  | tOther : Ty
  | tPtr (t : Ty) : Ty
deriving DecidableEq

/-- types.Context as constructed at each call site: the originating JSON
request if any, whether an HTTP request is attached, whether a WebSocket
connection is attached. -/
structure Context where
  jsonReq : Option RPCRequest
  hasHTTPReq : Bool
  hasWSConn : Bool

/-- A reflect.Value as the dispatch engine manipulates it: concrete scalar
values, an interface-kind value wrapping a concrete one, a pointer box, the
context argument, and the nil/zero value of reference kinds. -/
inductive RVal where
  | vInt (n : Int) : RVal
  | vStr (s : String) : RVal
  | vBytes (bs : List Nat) : RVal
  | vIface (v : RVal) : RVal
  | vPtr (v : RVal) : RVal
  | vCtx (c : Context) : RVal
  | vNil : RVal

/-- RPCFunc (handlers.go lines 42-48): the introspected function. The
underlying reflect.Value f together with unreflectResult is modelled as a
function from the full argument list (context included, at position 0) to
the (result, error) pair the two-value return contract prescribes. -/
structure RPCFunc where
  f : List RVal → RVal × Option String
  args : List Ty
  returns : List Ty
  argNames : List String
  ws : Bool

/-- Modelled from the spec: the error taxonomy of the types package (not
under src/) — ParseError, InvalidRequest, MethodNotFound,
InvalidParams/BindError, InternalError. -/
inductive ErrClass where
  | parseError : ErrClass
  | invalidRequest : ErrClass
  | methodNotFound : ErrClass
  | invalidParams : ErrClass
  | internalError : ErrClass
deriving DecidableEq

/-- Modelled from the spec: types.RPCResponse (not under src/), the tagged
union Success with id and result, or Failure with id, error class and the
attached error message. -/
inductive RPCResponse where
  | success (id : String) (result : RVal) : RPCResponse
  | failure (id : String) (code : ErrClass) (data : String) : RPCResponse

/-- Modelled from the spec: types.RPCParseError constructor. -/
def RPCParseError (id : String) (data : String) : RPCResponse :=
  RPCResponse.failure id ErrClass.parseError data

/-- Modelled from the spec: types.RPCInvalidRequestError constructor. -/
def RPCInvalidRequestError (id : String) (data : String) : RPCResponse :=
  RPCResponse.failure id ErrClass.invalidRequest data

/-- Modelled from the spec: types.RPCMethodNotFoundError constructor. -/
def RPCMethodNotFoundError (id : String) : RPCResponse :=
  RPCResponse.failure id ErrClass.methodNotFound ""

/-- Modelled from the spec: types.RPCInvalidParamsError constructor. -/
def RPCInvalidParamsError (id : String) (data : String) : RPCResponse :=
  RPCResponse.failure id ErrClass.invalidParams data

/-- Modelled from the spec: types.RPCInternalError constructor. -/
def RPCInternalError (id : String) (data : String) : RPCResponse :=
  RPCResponse.failure id ErrClass.internalError data

/-- Modelled from the spec: types.NewRPCSuccessResponse constructor. -/
def NewRPCSuccessResponse (id : String) (result : RVal) : RPCResponse :=
  RPCResponse.success id result

/-- The id carried by a Response envelope. -/
def RPCResponse.respId : RPCResponse → String
  | RPCResponse.success id _ => id
  | RPCResponse.failure id _ _ => id

/-- The error class of a Response, none for a success. -/
def RPCResponse.errClass : RPCResponse → Option ErrClass
  | RPCResponse.success _ _ => none
  | RPCResponse.failure _ c _ => some c

/-- reflect.Zero(argType): the zero value substituted for absent parameters
(handlers.go lines 199 and 303). Reference kinds zero to nil. -/
def zeroVal : Ty → RVal
  | Ty.tInt => RVal.vInt 0
  | Ty.tString => RVal.vStr ""
  | Ty.tBytes => RVal.vBytes []
  | _ => RVal.vNil

/-- Modelled from the spec: amino.UnmarshalJSON (pkgs/amino, not under src/)
structurally decodes a raw JSON value into the target type; only the type
and value shapes the embedding exercises are modelled, every other
combination is a decode failure. -/
def aminoUnmarshalJSON : Ty → Json → Except String RVal
  | Ty.tInt, Json.num n => Except.ok (RVal.vInt n)
  | Ty.tString, Json.str s => Except.ok (RVal.vStr s)
  | Ty.tBytes, Json.str s => Except.ok (RVal.vBytes (s.data.map Char.toNat))
  | _, _ => Except.error "cannot decode value into target type"

/-- Go map lookup on the params mapping decoded from a JSON object: the
raw value for a declared parameter name, none when absent. -/
def lookupParam (params : List (String × Json)) (name : String) : Option Json :=
  (params.find? (fun p => p.1 == name)).map (fun p => p.2)

/-- The per-name loop of mapParamsToArgs (handlers.go lines 186-204), with
the argument types already offset past the leading context argument: a
present parameter is decoded (a failure aborts the whole binding), an
absent one yields the zero value of its declared type. -/
def bindMapParams : List Ty → List String → List (String × Json) →
    Except String (List RVal)
  | _, [], _ => Except.ok []
  | t :: ts, n :: ns, params =>
    match lookupParam params n with
    | some p =>
      match aminoUnmarshalJSON t p with
      | Except.error e => Except.error e
      | Except.ok v =>
        match bindMapParams ts ns params with
        | Except.error e => Except.error e
        | Except.ok rest => Except.ok (v :: rest)
    | none =>
      match bindMapParams ts ns params with
      | Except.error e => Except.error e
      | Except.ok rest => Except.ok (zeroVal t :: rest)
  | [], _ :: _, _ => Except.error "argument type index out of range"

/-- mapParamsToArgs (handlers.go lines 186-204): binds a mapping payload
against the descriptor, skipping argsOffset leading argument types. An
argument-name list longer than the type list is a reflect index panic in
Go and is modelled as a binding error; it cannot arise for a descriptor
built by newRPCFunc. -/
def mapParamsToArgs (rpcFunc : RPCFunc) (params : List (String × Json))
    (argsOffset : Nat) : Except String (List RVal) :=
  bindMapParams (rpcFunc.args.drop argsOffset) rpcFunc.argNames params

/-- The per-position loop of arrayParamsToArgs: decode each positional raw
value against the corresponding declared type. -/
def bindArrayParams : List Ty → List Json → Except String (List RVal)
  | _, [] => Except.ok []
  | t :: ts, p :: ps =>
    match aminoUnmarshalJSON t p with
    | Except.error e => Except.error e
    | Except.ok v =>
      match bindArrayParams ts ps with
      | Except.error e => Except.error e
      | Except.ok rest => Except.ok (v :: rest)
  | [], _ :: _ => Except.error "argument type index out of range"

/-- arrayParamsToArgs (handlers.go lines 206-223): positional binding; a
sequence whose length differs from the declared parameter count fails with
the parameter count mismatch error. -/
def arrayParamsToArgs (rpcFunc : RPCFunc) (params : List Json)
    (argsOffset : Nat) : Except String (List RVal) :=
  if rpcFunc.argNames.length ≠ params.length then
    Except.error ("expected " ++ toString rpcFunc.argNames.length ++
      " parameters, got " ++ toString params.length)
  else
    bindArrayParams (rpcFunc.args.drop argsOffset) params

/-- jsonParamsToArgs (handlers.go lines 231-251) with argsOffset = 1: a raw
payload that json.Unmarshal accepts as a map binds by name (a JSON null
decodes into a nil map, hence binds every parameter to its zero value), one
it accepts as an array binds positionally, anything else is the unknown
params type error. -/
def jsonParamsToArgs (rpcFunc : RPCFunc) (raw : Json) :
    Except String (List RVal) :=
  match raw with
  | Json.obj fields => mapParamsToArgs rpcFunc fields 1
  | Json.null => mapParamsToArgs rpcFunc [] 1
  | Json.arr elems => arrayParamsToArgs rpcFunc elems 1
  | _ => Except.error "unknown type for JSON params, expected map or array"

/-- The argument list construction shared by the JSON-RPC loop (handlers.go
lines 148-157) and the WebSocket read routine (lines 666-675): the context
value first, then — only when the params payload is non-empty — the bound
arguments from jsonParamsToArgs. -/
def buildArgs (rpcFunc : RPCFunc) (ctx : Context) (params : Option Json) :
    Except String (List RVal) :=
  match params with
  | none => Except.ok [RVal.vCtx ctx]
  | some raw =>
    match jsonParamsToArgs rpcFunc raw with
    | Except.error e => Except.error e
    | Except.ok fnArgs => Except.ok (RVal.vCtx ctx :: fnArgs)

/-- unreflectResult (handlers.go lines 809-824) applied to the two returned
values returns[0] (the result) and returns[1] (the error, nil or a
message): a non-nil error is surfaced as an error with its message; an
interface-kind result is boxed behind a fresh addressable pointer before
serialization; any other result passes through. -/
def unreflectResult (result : RVal) (errV : Option String) :
    Except String RVal :=
  match errV with
  | some msg => Except.error msg
  | none =>
    match result with
    | RVal.vIface v => Except.ok (RVal.vPtr (RVal.vIface v))
    | r => Except.ok r

/-- Go map lookup funcMap[method]: the registered RPCFunc, none when the
method name is not registered. -/
def lookupFunc (funcMap : List (String × RPCFunc)) (method : String) :
    Option RPCFunc :=
  (funcMap.find? (fun p => p.1 == method)).map (fun p => p.2)

/-- The outcomes the JSON-RPC handler distinguishes when reading and
decoding the HTTP body (handlers.go lines 104-129): a body-read error, an
empty body, a body json.Unmarshal accepts as an array of requests, one it
accepts only as a single request, and one it accepts as neither. -/
inductive Body where
  | readError (msg : String) : Body
  | empty : Body
  | arrayOf (reqs : List RPCRequest) : Body
  | singleOf (req : RPCRequest) : Body
  | malformed (msg : String) : Body

/-- What the JSON-RPC endpoint writes back: one Response
(WriteRPCResponseHTTP), an array of Responses (WriteRPCResponseArrayHTTP),
the HTML endpoint listing (writeListOfEndpoints), or nothing at all. -/
inductive HandlerOut where
  | single (resp : RPCResponse) : HandlerOut
  | array (resps : List RPCResponse) : HandlerOut
  | endpointList : HandlerOut
  | nothing : HandlerOut

/-- The body of the per-request loop of makeJSONRPCHandler (handlers.go
lines 131-166): a notification (empty id) produces no Response; a path
longer than the bare slash produces InvalidRequest; an unregistered or
WebSocket-only method produces MethodNotFound; then params are bound (a
failure produces InvalidParams) and the function is called, its outcome
normalized by unreflectResult into InternalError or a success Response. -/
def processRequest (funcMap : List (String × RPCFunc)) (path : String)
    (req : RPCRequest) : Option RPCResponse :=
  if req.id = "" then none
  else if path.length > 1 then
    some (RPCInvalidRequestError req.id ("path " ++ path ++ " is invalid"))
  else
    match lookupFunc funcMap req.method with
    | none => some (RPCMethodNotFoundError req.id)
    | some rpcFunc =>
      if rpcFunc.ws then some (RPCMethodNotFoundError req.id)
      else
        let ctx : Context := ⟨some req, true, false⟩
        match buildArgs rpcFunc ctx req.params with
        | Except.error e =>
          some (RPCInvalidParamsError req.id
            ("error converting json params to arguments: " ++ e))
        | Except.ok args =>
          let returns := rpcFunc.f args
          match unreflectResult returns.1 returns.2 with
          | Except.error e => some (RPCInternalError req.id e)
          | Except.ok result => some (NewRPCSuccessResponse req.id result)

/-- The request loop of makeJSONRPCHandler: Responses are appended in input
order, requests that produce no Response contribute nothing. -/
def processRequests (funcMap : List (String × RPCFunc)) (path : String)
    (reqs : List RPCRequest) : List RPCResponse :=
  reqs.filterMap (processRequest funcMap path)

/-- makeJSONRPCHandler (handlers.go lines 102-171): a body-read error is one
InvalidRequest Response with empty id; an empty body triggers the endpoint
listing; a body decoding as neither an array nor a single request is one
ParseError Response with empty id; otherwise the decoded requests (a single
request wrapped in a one-element sequence) run through the loop and the
collected Responses are written as an array when there are any, nothing
otherwise. -/
def makeJSONRPCHandler (funcMap : List (String × RPCFunc)) (path : String)
    (body : Body) : HandlerOut :=
  match body with
  | Body.readError msg =>
    HandlerOut.single (RPCInvalidRequestError ""
      ("error reading request body: " ++ msg))
  | Body.empty => HandlerOut.endpointList
  | Body.malformed msg =>
    HandlerOut.single (RPCParseError "" ("error unmarshalling request: " ++ msg))
  | Body.arrayOf reqs =>
    let responses := processRequests funcMap path reqs
    if responses.length > 0 then HandlerOut.array responses
    else HandlerOut.nothing
  | Body.singleOf req =>
    let responses := processRequests funcMap path [req]
    if responses.length > 0 then HandlerOut.array responses
    else HandlerOut.nothing

/-- What the catch-all route produces (handleInvalidJSONRPCPaths,
handlers.go lines 173-184): a transport-level 404 for any path other than
exactly the bare slash, the JSON-RPC handler outcome otherwise. -/
inductive RouterOut where
  | notFound404 : RouterOut
  | handled (out : HandlerOut) : RouterOut

/-- handleInvalidJSONRPCPaths composed with makeJSONRPCHandler, as installed
on the catch-all route. -/
def jsonRPCEndpoint (funcMap : List (String × RPCFunc)) (path : String)
    (body : Body) : RouterOut :=
  if path ≠ "/" then RouterOut.notFound404
  else RouterOut.handled (makeJSONRPCHandler funcMap path body)

/-- Modelled from the spec: the RE_INT integer-literal pattern (defined
outside src/), an optional leading minus sign followed by one or more
decimal digits, anchored at both ends. -/
def isIntString (s : String) : Bool :=
  match s.data with
  | [] => false
  | c :: cs =>
    if c = '-' then !cs.isEmpty && cs.all Char.isDigit
    else (c :: cs).all Char.isDigit

/-- strings.HasPrefix(strings.ToLower(arg), "0x") (handlers.go line 362):
the first character is the digit zero and the second lowercases to x —
zero is the only character whose lowercase form is zero, and x and X are
the only ones whose lowercase form is x. -/
def hexPrefix (s : String) : Bool :=
  match s.data with
  | c0 :: c1 :: _ => c0 == '0' && (c1 == 'x' || c1 == 'X')
  | _ => false

/-- The numeric value of one hexadecimal digit, none for any other
character. -/
def hexDigitVal (c : Char) : Option Nat :=
  if c.isDigit then some (c.toNat - 48)
  else if 'a' ≤ c && c ≤ 'f' then some (c.toNat - 87)
  else if 'A' ≤ c && c ≤ 'F' then some (c.toNat - 55)
  else none

/-- hex.DecodeString on the character list: consume two hex digits per
byte; an odd-length input or a non-hex character is an error. -/
def hexDecodeList : List Char → Except String (List Nat)
  | [] => Except.ok []
  | [_] => Except.error "odd length hex string"
  | a :: b :: rest =>
    match hexDigitVal a, hexDigitVal b with
    | some x, some y =>
      match hexDecodeList rest with
      | Except.error e => Except.error e
      | Except.ok bs => Except.ok ((x * 16 + y) :: bs)
    | _, _ => Except.error "invalid hex byte"

/-- hex.DecodeString (encoding/hex) on a string. -/
def hexDecode (s : String) : Except String (List Nat) :=
  hexDecodeList s.data

/-- Go string(value) on a byte slice, as used to coerce hex-decoded bytes
into a string target: each byte becomes one character. -/
def stringOfBytes (bs : List Nat) : String :=
  String.mk (bs.map Char.ofNat)

/-- The byte content of a string, inverse of the coercion above. -/
def bytesOfString (s : String) : List Nat :=
  s.data.map Char.toNat

/-- The string with its delimiting double quotes removed, none when it is
not quote-delimited. -/
def stripQuotes (s : String) : Option String :=
  if s.length ≥ 2 && s.startsWith "\x22" && s.endsWith "\x22" then
    some ((s.drop 1).dropRight 1)
  else none

/-- The numeric value of a decimal digit string. -/
def digitsToNat (s : String) : Nat :=
  s.data.foldl (fun a c => a * 10 + (c.toNat - 48)) 0

/-- The integer denoted by a string matching the integer-literal pattern,
none otherwise. -/
def parseIntCore (s : String) : Option Int :=
  if isIntString s then
    if s.startsWith "-" then some (-(digitsToNat (s.drop 1) : Int))
    else some ((digitsToNat s : Int))
  else none

/-- Modelled from the spec: amino.UnmarshalJSON (pkgs/amino, not under
src/) applied to raw JSON text, as jsonStringToArg does; only the
fragments the query-string binder exercises are modelled — integer targets
accept a quoted or bare integer literal, string targets accept a
quote-delimited string — everything else is a decode failure. -/
def aminoUnmarshalText : Ty → String → Except String RVal
  | Ty.tInt, s =>
    match stripQuotes s with
    | some core =>
      match parseIntCore core with
      | some n => Except.ok (RVal.vInt n)
      | none => Except.error "invalid integer literal"
    | none =>
      match parseIntCore s with
      | some n => Except.ok (RVal.vInt n)
      | none => Except.error "invalid integer literal"
  | Ty.tString, s =>
    match stripQuotes s with
    | some core => Except.ok (RVal.vStr core)
    | none => Except.error "invalid string literal"
  | _, _ => Except.error "cannot decode text into target type"

/-- jsonStringToArg (handlers.go lines 330-338): decode the raw text into
a fresh value of the target type. -/
def jsonStringToArg (rt : Ty) (arg : String) : Except String RVal :=
  aminoUnmarshalText rt arg

/-- The non-JSON heuristics of the underscore-prefixed nonJSONStringToArg
helper (handlers.go lines 359-414), on a non-pointer target kind. Outcome
ok (some v) is (value, nil, true); ok none is the fall-through
(nil, nil, false) to jsonStringToArg; error is (nil, err, false). In
precedence order: an integer literal against an integer kind is decoded as
a quoted JSON integer; a 0x-prefixed string hex-decodes for byte-slice or
string kinds (coerced for a string) and is an error for every other kind;
a quote-delimited string against a byte slice JSON-decodes and exposes its
bytes; anything else falls through. -/
def nonJSONStringToArgAux (rt : Ty) (arg : String) :
    Except String (Option RVal) :=
  let isInt := isIntString arg
  let isQuoted := arg.startsWith "\x22" && arg.endsWith "\x22"
  let isHex := hexPrefix arg
  let expectingInt : Bool := match rt with | Ty.tInt => true | _ => false
  let expectingString : Bool := match rt with | Ty.tString => true | _ => false
  let expectingByteSlice : Bool := match rt with | Ty.tBytes => true | _ => false
  if isInt && expectingInt then
    match jsonStringToArg rt ("\x22" ++ arg ++ "\x22") with
    | Except.error e => Except.error e
    | Except.ok v => Except.ok (some v)
  else if isHex then
    if !expectingString && !expectingByteSlice then
      Except.error "got a hex string arg, but expected another kind"
    else
      match hexDecode (arg.drop 2) with
      | Except.error e => Except.error e
      | Except.ok value =>
        match rt with
        | Ty.tString => Except.ok (some (RVal.vStr (stringOfBytes value)))
        | _ => Except.ok (some (RVal.vBytes value))
  else if isQuoted && expectingByteSlice then
    match aminoUnmarshalText Ty.tString arg with
    | Except.error e => Except.error e
    | Except.ok (RVal.vStr s) => Except.ok (some (RVal.vBytes (bytesOfString s)))
    | Except.ok _ => Except.error "unexpected decode result"
  else
    Except.ok none

/-- nonJSONStringToArg (handlers.go lines 340-356): pointer targets are
unwrapped recursively and a produced value is boxed back behind a fresh
pointer; a fall-through or an error propagates unchanged. -/
def nonJSONStringToArg (rt : Ty) (arg : String) :
    Except String (Option RVal) :=
  match rt with
  | Ty.tPtr t =>
    match nonJSONStringToArg t arg with
    | Except.error e => Except.error e
    | Except.ok (some v) => Except.ok (some (RVal.vPtr v))
    | Except.ok none => Except.ok none
  | _ => nonJSONStringToArgAux rt arg

/-- Modelled from the spec: GetParam (outside src/) fetches the named HTTP
query argument as a string, empty when absent. -/
def GetParam (query : List (String × String)) (name : String) : String :=
  ((query.find? (fun p => p.1 == name)).map (fun p => p.2)).getD ""

/-- The per-name loop of httpParamsToArgs (handlers.go lines 294-328), with
the argument types already offset past the context argument: each value
starts at the zero value of its declared type; an empty query value keeps
it; otherwise the non-JSON heuristics run first and the raw text is JSON
decoded only on fall-through; any error aborts the whole binding. -/
def bindHTTPParams : List Ty → List String → List (String × String) →
    Except String (List RVal)
  | _, [], _ => Except.ok []
  | t :: ts, n :: ns, query =>
    let rest := bindHTTPParams ts ns query
    let arg := GetParam query n
    if arg = "" then
      match rest with
      | Except.error e => Except.error e
      | Except.ok vs => Except.ok (zeroVal t :: vs)
    else
      match nonJSONStringToArg t arg with
      | Except.error e => Except.error e
      | Except.ok (some v) =>
        match rest with
        | Except.error e => Except.error e
        | Except.ok vs => Except.ok (v :: vs)
      | Except.ok none =>
        match jsonStringToArg t arg with
        | Except.error e => Except.error e
        | Except.ok v =>
          match rest with
          | Except.error e => Except.error e
          | Except.ok vs => Except.ok (v :: vs)
  | [], _ :: _, _ => Except.error "argument type index out of range"

/-- httpParamsToArgs (handlers.go lines 294-328) with argsOffset = 1. -/
def httpParamsToArgs (rpcFunc : RPCFunc) (query : List (String × String)) :
    Except String (List RVal) :=
  bindHTTPParams (rpcFunc.args.drop 1) rpcFunc.argNames query

/-- makeHTTPHandler (handlers.go lines 258-290): a WebSocket-only function
gets a fixed MethodNotFound with empty id; otherwise the query parameters
are bound (a failure is InvalidParams with empty id), the function is
called with the context prepended, and the outcome is normalized into
InternalError or a success Response, always with empty id. -/
def makeHTTPHandler (rpcFunc : RPCFunc) (query : List (String × String)) :
    RPCResponse :=
  if rpcFunc.ws then RPCMethodNotFoundError ""
  else
    let ctx : Context := ⟨none, true, false⟩
    match httpParamsToArgs rpcFunc query with
    | Except.error e =>
      RPCInvalidParamsError ""
        ("error converting http params to arguments: " ++ e)
    | Except.ok fnArgs =>
      let returns := rpcFunc.f (RVal.vCtx ctx :: fnArgs)
      match unreflectResult returns.1 returns.2 with
      | Except.error e => RPCInternalError "" e
      | Except.ok result => NewRPCSuccessResponse "" result

/-- A data frame received on a WebSocket connection, after the
json.Unmarshal attempt the read routine performs on its bytes: either the
bytes decode as a request, or they do not. -/
inductive Frame where
  | request (req : RPCRequest) : Frame
  | malformed (msg : String) : Frame

/-- The per-data-frame processing of wsConnection.readRoutine (handlers.go
lines 645-689): malformed JSON is a ParseError with empty id; a
notification is dropped with no Response; an unregistered method is
MethodNotFound with the original id (no WebSocket-only check on this
transport); a params binding failure is InternalError; otherwise the
function is called and the outcome normalized. The returned Response, when
present, is pushed with the blocking WriteRPCResponse. -/
def wsHandleFrame (funcMap : List (String × RPCFunc)) (frame : Frame) :
    Option RPCResponse :=
  match frame with
  | Frame.malformed msg =>
    some (RPCParseError "" ("error unmarshaling request: " ++ msg))
  | Frame.request req =>
    if req.id = "" then none
    else
      match lookupFunc funcMap req.method with
      | none => some (RPCMethodNotFoundError req.id)
      | some rpcFunc =>
        let ctx : Context := ⟨some req, false, true⟩
        match buildArgs rpcFunc ctx req.params with
        | Except.error e =>
          some (RPCInternalError req.id
            ("error converting json params to arguments: " ++ e))
        | Except.ok args =>
          let returns := rpcFunc.f args
          match unreflectResult returns.1 returns.2 with
          | Except.error e => some (RPCInternalError req.id e)
          | Except.ok result => some (NewRPCSuccessResponse req.id result)

/-- A bounded FIFO channel: a capacity and a buffer whose head is the
oldest element. -/
structure Chan (α : Type) where
  cap : Nat
  buf : List α

/-- The non-blocking push (a select with a default branch): append when
there is room, drop the message and leave the channel unchanged when it
is full. -/
def Chan.tryPush {α : Type} (c : Chan α) (m : α) : Chan α × Bool :=
  if c.buf.length < c.cap then (⟨c.cap, c.buf ++ [m]⟩, true) else (c, false)

/-- wsConnection.WriteRPCResponse (handlers.go lines 573-579), the
guaranteed-delivery push: abandoned only when the quit signal is set,
otherwise the caller blocks until the response is accepted into the
buffer. -/
def WriteRPCResponse (quit : Bool) (writeChan : List RPCResponse)
    (resp : RPCResponse) : List RPCResponse :=
  if quit then writeChan else writeChan ++ [resp]

/-- wsConnection.TryWriteRPCResponse (handlers.go lines 583-592), the
best-effort push: false without blocking when the quit signal is set or
the channel is full. -/
def TryWriteRPCResponse (quit : Bool) (writeChan : Chan RPCResponse)
    (resp : RPCResponse) : Chan RPCResponse × Bool :=
  if quit then (writeChan, false) else writeChan.tryPush resp

/-- The keepalive reply channel of wsConnection.writeRoutine (handlers.go
line 704): capacity one, initially empty. -/
def pongsInit : Chan String :=
  ⟨1, []⟩

/-- The ping handler installed by the write routine (handlers.go lines
705-711): a non-blocking push of the ping application data onto the reply
channel; the message is dropped when a reply is already pending. -/
def setPingHandlerPush (pongs : Chan String) (m : String) : Chan String :=
  (pongs.tryPush m).1

/-- A value recovered from a panic: either an error value, or any other
value with its printed form. -/
inductive PanicVal where
  | errVal (msg : String) : PanicVal
  | otherVal (desc : String) : PanicVal

/-- The r.(error) cast in the read routine recovery (handlers.go lines
608-611): an error value passes through, any other recovered value is
wrapped as the WSJSONRPC-prefixed error. -/
def panicValToError : PanicVal → String
  | PanicVal.errVal m => m
  | PanicVal.otherVal d => "WSJSONRPC: " ++ d

/-- What the deferred block of wsConnection.readRoutine does on exit
(handlers.go lines 606-618): on a recovered panic, an InternalError
Response carrying the fixed id string and the recovered error is pushed
with the blocking WriteRPCResponse and a fresh read routine is spawned,
the connection is left open; on a normal return the underlying connection
is closed. -/
inductive DeferOutcome where
  | recovered (pushed : RPCResponse) (respawn : Bool) : DeferOutcome
  | normalExit (closedConn : Bool) : DeferOutcome

/-- The deferred recovery block of the read routine. -/
def readRoutineDefer (recoveredVal : Option PanicVal) : DeferOutcome :=
  match recoveredVal with
  | some r =>
    DeferOutcome.recovered (RPCInternalError "unknown" (panicValToError r)) true
  | none => DeferOutcome.normalExit true

/-- The recovery block's effect on the outbound queue: the InternalError
Response built from the recovered value is delivered with the blocking
push, and the read task is respawned. -/
def readRoutineRecoverStep (quit : Bool) (writeChan : List RPCResponse)
    (r : PanicVal) : List RPCResponse × Bool :=
  (WriteRPCResponse quit writeChan
    (RPCInternalError "unknown" (panicValToError r)), true)

/-- The Echo function of the spec round-trip scenario, registered as
Echo(ctx, s string) returning (s, nil). Any other argument shape stands
for the reflect call a miscalled handler cannot service and yields a
non-nil error surrogate. -/
def echoFunc : RPCFunc :=
  { f := fun args =>
      match args with
      | [RVal.vCtx _, RVal.vStr s] => (RVal.vStr s, none)
      | _ => (RVal.vNil, some "reflect call with mismatched arguments")
  , args := [Ty.tCtx, Ty.tString]
  , returns := [Ty.tString, Ty.tOther]
  , argNames := ["s"]
  , ws := false }

/-- A registry holding only the Echo function; the method name Missing is
unregistered. -/
def scenarioFuncMap : List (String × RPCFunc) :=
  [("Echo", echoFunc)]

/-- First request of the batch scenario: id 1, Echo with positional
params [a]. -/
def c1req1 : RPCRequest :=
  ⟨"1", "Echo", some (Json.arr [Json.str "a"])⟩

/-- Second request of the batch scenario: a notification (empty id). -/
def c1req2 : RPCRequest :=
  ⟨"", "Echo", some (Json.arr [Json.str "b"])⟩

/-- Third request of the batch scenario: id 2, unregistered method. -/
def c1req3 : RPCRequest :=
  ⟨"2", "Missing", none⟩

/-- A registered function whose handler always returns a non-nil error. -/
def failFunc : RPCFunc :=
  { f := fun _ => (RVal.vNil, some "boom")
  , args := [Ty.tCtx]
  , returns := [Ty.tOther, Ty.tOther]
  , argNames := []
  , ws := false }

/-- A registry holding only the always-failing function. -/
def failFuncMap : List (String × RPCFunc) :=
  [("Fail", failFunc)]

/-- A request invoking the always-failing function with no params. -/
def failReq : RPCRequest :=
  ⟨"9", "Fail", none⟩

/-- A WebSocket request for Echo with two positional params where the
descriptor declares one: its binding fails with a count mismatch. -/
def c2wsReq : RPCRequest :=
  ⟨"7", "Echo", some (Json.arr [Json.str "a", Json.str "b"])⟩

/-- A string with the hex prefix never matches the integer-literal
pattern: its second character is x or X, which is not a decimal digit,
and its first character is the digit zero, not a minus sign. -/
theorem isIntString_eq_false_of_hexPrefix (s : String)
    (h : hexPrefix s = true) : isIntString s = false := by
  unfold hexPrefix at h
  unfold isIntString
  cases hd : s.data with
  | nil => simp [hd] at h
  | cons c0 tl =>
    cases tl with
    | nil => simp [hd] at h
    | cons c1 rest =>
      rw [hd] at h
      simp only [Bool.and_eq_true, beq_iff_eq, Bool.or_eq_true] at h
      obtain ⟨h0, h1⟩ := h
      subst h0
      have hdig : c1.isDigit = false := by
        rcases h1 with h1 | h1 <;> subst h1 <;> decide
      simp [List.all_cons, hdig]

/-- A notification (empty id) produces no Response in the request loop. -/
theorem processRequest_notification (funcMap : List (String × RPCFunc))
    (path : String) (req : RPCRequest) (h : req.id = "") :
    processRequest funcMap path req = none := by
  unfold processRequest
  rw [if_pos h]

/-- Claim C1: in the JSON-RPC batch loop every notification (empty id)
contributes zero entries to the output wherever it sits, the Responses of
the remaining requests keep the input order (the loop output is append
homomorphic), and the spec scenario batch with Echo, a notification, and
an unregistered method yields exactly the two expected Responses in
order. -/
theorem jsonrpc_batch_notification_order :
    (∀ (funcMap : List (String × RPCFunc)) (path : String)
       (pre post : List RPCRequest) (note : RPCRequest), note.id = "" →
       processRequests funcMap path (pre ++ note :: post) =
         processRequests funcMap path (pre ++ post))
    ∧ (∀ (funcMap : List (String × RPCFunc)) (path : String)
        (xs ys : List RPCRequest),
        processRequests funcMap path (xs ++ ys) =
          processRequests funcMap path xs ++ processRequests funcMap path ys)
    ∧ makeJSONRPCHandler scenarioFuncMap "/"
        (Body.arrayOf [c1req1, c1req2, c1req3]) =
      HandlerOut.array
        [NewRPCSuccessResponse "1" (RVal.vStr "a"),
         RPCMethodNotFoundError "2"] := by
  refine ⟨?_, ?_, rfl⟩
  · intro funcMap path pre post note hnote
    unfold processRequests
    rw [List.filterMap_append, List.filterMap_append, List.filterMap_cons,
      processRequest_notification funcMap path note hnote]
  · intro funcMap path xs ys
    unfold processRequests
    rw [List.filterMap_append]

/-- Witness for claim C1 at the scenario batch: inserting the notification
between the two effective requests leaves the loop output unchanged. -/
theorem jsonrpc_batch_notification_order_witness :
    processRequests scenarioFuncMap "/" ([c1req1] ++ c1req2 :: [c1req3]) =
      processRequests scenarioFuncMap "/" ([c1req1] ++ [c1req3]) :=
  jsonrpc_batch_notification_order.1 scenarioFuncMap "/" [c1req1] [c1req3]
    c1req2 rfl

/-- Claim C5: a body that decodes as neither an array of Requests nor a
single Request yields exactly one ParseError Response carrying the empty
id, and nothing else runs. -/
theorem jsonrpc_malformed_single_parse_error
    (funcMap : List (String × RPCFunc)) (path msg : String) :
    makeJSONRPCHandler funcMap path (Body.malformed msg) =
      HandlerOut.single
        (RPCParseError "" ("error unmarshalling request: " ++ msg)) ∧
    (RPCParseError "" ("error unmarshalling request: " ++ msg)).respId = "" ∧
    (RPCParseError "" ("error unmarshalling request: " ++ msg)).errClass =
      some ErrClass.parseError :=
  ⟨rfl, rfl, rfl⟩

/-- Claim C6: at the JSON-RPC endpoint a non-notification request naming an
unregistered or WebSocket-only method gets MethodNotFound carrying the
original id unchanged, and on a WebSocket connection a request naming an
unregistered method likewise gets MethodNotFound with the original id. -/
theorem method_not_found_original_id :
    (∀ (funcMap : List (String × RPCFunc)) (req : RPCRequest),
       req.id ≠ "" →
       (lookupFunc funcMap req.method = none ∨
        ∃ rpcFunc, lookupFunc funcMap req.method = some rpcFunc ∧
          rpcFunc.ws = true) →
       processRequest funcMap "/" req = some (RPCMethodNotFoundError req.id))
    ∧ (∀ (funcMap : List (String × RPCFunc)) (req : RPCRequest),
        req.id ≠ "" →
        lookupFunc funcMap req.method = none →
        wsHandleFrame funcMap (Frame.request req) =
          some (RPCMethodNotFoundError req.id)) := by
  have hpath : ¬(("/" : String).length > 1) := by decide
  constructor
  · intro funcMap req hid hlook
    unfold processRequest
    rw [if_neg hid, if_neg hpath]
    rcases hlook with hnone | ⟨rpcFunc, hsome, hws⟩
    · rw [hnone]
    · rw [hsome]
      simp only [hws, if_pos]
  · intro funcMap req hid hnone
    show (if req.id = "" then none
      else match lookupFunc funcMap req.method with
        | none => some (RPCMethodNotFoundError req.id)
        | some rpcFunc =>
          let ctx : Context := ⟨some req, false, true⟩
          match buildArgs rpcFunc ctx req.params with
          | Except.error e => some (RPCInternalError req.id
              ("error converting json params to arguments: " ++ e))
          | Except.ok args =>
            let returns := rpcFunc.f args
            match unreflectResult returns.1 returns.2 with
            | Except.error e => some (RPCInternalError req.id e)
            | Except.ok result => some (NewRPCSuccessResponse req.id result)) =
      some (RPCMethodNotFoundError req.id)
    rw [if_neg hid, hnone]

/-- Witness for claim C6: the scenario request naming the unregistered
method Missing gets MethodNotFound with its original id 2, on both
transports. -/
theorem method_not_found_original_id_witness :
    processRequest scenarioFuncMap "/" c1req3 =
      some (RPCMethodNotFoundError "2") ∧
    wsHandleFrame scenarioFuncMap (Frame.request c1req3) =
      some (RPCMethodNotFoundError "2") :=
  ⟨method_not_found_original_id.1 scenarioFuncMap c1req3 (by decide)
      (Or.inl rfl),
    method_not_found_original_id.2 scenarioFuncMap c1req3 (by decide) rfl⟩

/-- Claim C7: when binding from a mapping payload, a declared parameter
present in the mapping is structurally decoded and a decode failure fails
the whole binding, while an absent parameter contributes the zero value of
its declared type and binding continues. -/
theorem map_params_present_decode_absent_zero :
    (∀ (t : Ty) (ts : List Ty) (n : String) (ns : List String)
       (params : List (String × Json)),
       lookupParam params n = none →
       bindMapParams (t :: ts) (n :: ns) params =
         (bindMapParams ts ns params).map (fun vs => zeroVal t :: vs))
    ∧ (∀ (t : Ty) (ts : List Ty) (n : String) (ns : List String)
        (params : List (String × Json)) (p : Json) (e : String),
        lookupParam params n = some p →
        aminoUnmarshalJSON t p = Except.error e →
        bindMapParams (t :: ts) (n :: ns) params = Except.error e)
    ∧ (∀ (t : Ty) (ts : List Ty) (n : String) (ns : List String)
        (params : List (String × Json)) (p : Json) (v : RVal),
        lookupParam params n = some p →
        aminoUnmarshalJSON t p = Except.ok v →
        bindMapParams (t :: ts) (n :: ns) params =
          (bindMapParams ts ns params).map (fun vs => v :: vs)) := by
  refine ⟨?_, ?_, ?_⟩
  · intro t ts n ns params habsent
    simp only [bindMapParams, habsent]
    cases bindMapParams ts ns params <;> rfl
  · intro t ts n ns params p e hpresent hdecode
    simp only [bindMapParams, hpresent, hdecode]
  · intro t ts n ns params p v hpresent hdecode
    simp only [bindMapParams, hpresent, hdecode]
    cases bindMapParams ts ns params <;> rfl

/-- Witness for claim C7: a declared integer parameter absent from the
mapping binds to zero, and a present one whose raw value cannot decode
into the integer type fails the whole binding. -/
theorem map_params_present_decode_absent_zero_witness :
    bindMapParams [Ty.tInt] ["n"] [] =
      (bindMapParams [] [] []).map (fun vs => zeroVal Ty.tInt :: vs) ∧
    bindMapParams [Ty.tInt] ["n"] [("n", Json.str "a")] =
      Except.error "cannot decode value into target type" :=
  ⟨map_params_present_decode_absent_zero.1 Ty.tInt [] "n" [] [] rfl,
    map_params_present_decode_absent_zero.2.1 Ty.tInt [] "n" []
      [("n", Json.str "a")] (Json.str "a")
      "cannot decode value into target type" rfl rfl⟩

/-- Claim C8: a non-empty hex-prefixed query value hex-decodes into bytes
for a byte-slice target, hex-decodes and coerces into a string for a
string target, and is a binding error for every other target kind; in
particular 0x68656c6c6f against a byte-slice parameter decodes to the
bytes of hello. -/
theorem hex_query_binding :
    (∀ arg : String, hexPrefix arg = true →
       nonJSONStringToArgAux Ty.tBytes arg =
         match hexDecode (arg.drop 2) with
         | Except.error e => Except.error e
         | Except.ok value => Except.ok (some (RVal.vBytes value)))
    ∧ (∀ arg : String, hexPrefix arg = true →
        nonJSONStringToArgAux Ty.tString arg =
          match hexDecode (arg.drop 2) with
          | Except.error e => Except.error e
          | Except.ok value => Except.ok (some (RVal.vStr (stringOfBytes value))))
    ∧ (∀ (rt : Ty) (arg : String), hexPrefix arg = true →
        rt ≠ Ty.tString → rt ≠ Ty.tBytes →
        nonJSONStringToArgAux rt arg =
          Except.error "got a hex string arg, but expected another kind")
    ∧ nonJSONStringToArg Ty.tBytes "0x68656c6c6f" =
        Except.ok (some (RVal.vBytes [104, 101, 108, 108, 111])) := by
  refine ⟨?_, ?_, ?_, rfl⟩
  · intro arg hhex
    simp [nonJSONStringToArgAux, hhex]
  · intro arg hhex
    simp [nonJSONStringToArgAux, hhex]
  · intro rt arg hhex hnstr hnbytes
    have hint : isIntString arg = false := isIntString_eq_false_of_hexPrefix arg hhex
    cases rt with
    | tInt => simp [nonJSONStringToArgAux, hhex, hint]
    | tString => exact absurd rfl hnstr
    | tBytes => exact absurd rfl hnbytes
    | tIface => simp [nonJSONStringToArgAux, hhex]
    | tCtx => simp [nonJSONStringToArgAux, hhex]
    | tOther => simp [nonJSONStringToArgAux, hhex]
    | tPtr t => simp [nonJSONStringToArgAux, hhex]

/-- Witness for claim C8: an integer target given a hex-prefixed value is
a binding error, and a string target given 0x6869 receives the coerced
string hi. -/
theorem hex_query_binding_witness :
    nonJSONStringToArgAux Ty.tInt "0x12" =
      Except.error "got a hex string arg, but expected another kind" ∧
    nonJSONStringToArgAux Ty.tString "0x6869" =
      match hexDecode (("0x6869" : String).drop 2) with
      | Except.error e => Except.error e
      | Except.ok value => Except.ok (some (RVal.vStr (stringOfBytes value))) :=
  ⟨hex_query_binding.2.2.1 Ty.tInt "0x12" rfl (by decide) (by decide),
    hex_query_binding.2.1 "0x6869" rfl⟩

/-- Claim C9: of the two returned values, a non-nil error value makes the
dispatch surface an InternalError Failure with that error message — at the
JSON-RPC endpoint the loop emits it instead of re-raising — and a nil
error with an interface-kind result boxes the result behind an
addressable pointer before serialization. -/
theorem dispatcher_two_value_contract :
    (∀ (result : RVal) (msg : String),
       unreflectResult result (some msg) = Except.error msg)
    ∧ (∀ v : RVal, unreflectResult (RVal.vIface v) none =
        Except.ok (RVal.vPtr (RVal.vIface v)))
    ∧ (∀ (funcMap : List (String × RPCFunc)) (req : RPCRequest)
        (rpcFunc : RPCFunc) (args : List RVal) (res : RVal) (msg : String),
        req.id ≠ "" →
        lookupFunc funcMap req.method = some rpcFunc →
        rpcFunc.ws = false →
        buildArgs rpcFunc ⟨some req, true, false⟩ req.params =
          Except.ok args →
        rpcFunc.f args = (res, some msg) →
        processRequest funcMap "/" req =
          some (RPCInternalError req.id msg)) := by
  have hpath : ¬(("/" : String).length > 1) := by decide
  refine ⟨fun result msg => rfl, fun v => rfl, ?_⟩
  intro funcMap req rpcFunc args res msg hid hlook hws hargs hcall
  unfold processRequest
  rw [if_neg hid, if_neg hpath, hlook]
  simp only [hws, Bool.false_eq_true, if_neg, reduceIte, hargs, hcall]
  rfl

/-- Witness for claim C9: the always-failing registered function makes the
JSON-RPC loop emit InternalError with the message boom and the original
id. -/
theorem dispatcher_two_value_contract_witness :
    processRequest failFuncMap "/" failReq =
      some (RPCInternalError "9" "boom") :=
  dispatcher_two_value_contract.2.2 failFuncMap failReq failFunc
    [RVal.vCtx ⟨some failReq, true, false⟩] RVal.vNil "boom"
    (by decide) rfl rfl rfl rfl

/-- Claim C10: a request whose params payload is absent or empty invokes
the handler with the context argument alone on both transports — the
argument list the loop builds is exactly the singleton context, so a
method declaring parameters is called with fewer arguments than its
descriptor declares. -/
theorem empty_params_context_only :
    (∀ (rpcFunc : RPCFunc) (ctx : Context),
       buildArgs rpcFunc ctx none = Except.ok [RVal.vCtx ctx])
    ∧ (∀ (rpcFunc : RPCFunc) (ctx : Context) (args : List RVal),
        rpcFunc.argNames ≠ [] →
        buildArgs rpcFunc ctx none = Except.ok args →
        args.length < 1 + rpcFunc.argNames.length)
    ∧ (∀ (funcMap : List (String × RPCFunc)) (req : RPCRequest)
        (rpcFunc : RPCFunc), req.id ≠ "" → req.params = none →
        lookupFunc funcMap req.method = some rpcFunc →
        rpcFunc.ws = false →
        processRequest funcMap "/" req =
          some (match unreflectResult
              (rpcFunc.f [RVal.vCtx ⟨some req, true, false⟩]).1
              (rpcFunc.f [RVal.vCtx ⟨some req, true, false⟩]).2 with
            | Except.error e => RPCInternalError req.id e
            | Except.ok result => NewRPCSuccessResponse req.id result))
    ∧ (∀ (funcMap : List (String × RPCFunc)) (req : RPCRequest)
        (rpcFunc : RPCFunc), req.id ≠ "" → req.params = none →
        lookupFunc funcMap req.method = some rpcFunc →
        wsHandleFrame funcMap (Frame.request req) =
          some (match unreflectResult
              (rpcFunc.f [RVal.vCtx ⟨some req, false, true⟩]).1
              (rpcFunc.f [RVal.vCtx ⟨some req, false, true⟩]).2 with
            | Except.error e => RPCInternalError req.id e
            | Except.ok result => NewRPCSuccessResponse req.id result)) := by
  have hpath : ¬(("/" : String).length > 1) := by decide
  refine ⟨fun rpcFunc ctx => rfl, ?_, ?_, ?_⟩
  · intro rpcFunc ctx args hne hargs
    have : args = [RVal.vCtx ctx] := by
      have h := hargs
      unfold buildArgs at h
      exact (Except.ok.injEq _ _ ▸ h.symm)
    subst this
    have hlen : 0 < rpcFunc.argNames.length :=
      List.length_pos.mpr hne
    simp only [List.length_cons, List.length_nil]
    omega
  · intro funcMap req rpcFunc hid hparams hlook hws
    unfold processRequest
    rw [if_neg hid, if_neg hpath, hlook]
    simp only [hws, Bool.false_eq_true, if_neg, reduceIte, hparams, buildArgs]
    cases unreflectResult (rpcFunc.f [RVal.vCtx ⟨some req, true, false⟩]).1
        (rpcFunc.f [RVal.vCtx ⟨some req, true, false⟩]).2 <;> rfl
  · intro funcMap req rpcFunc hid hparams hlook
    show (if req.id = "" then none
      else match lookupFunc funcMap req.method with
        | none => some (RPCMethodNotFoundError req.id)
        | some rpcFunc =>
          let ctx : Context := ⟨some req, false, true⟩
          match buildArgs rpcFunc ctx req.params with
          | Except.error e => some (RPCInternalError req.id
              ("error converting json params to arguments: " ++ e))
          | Except.ok args =>
            let returns := rpcFunc.f args
            match unreflectResult returns.1 returns.2 with
            | Except.error e => some (RPCInternalError req.id e)
            | Except.ok result => some (NewRPCSuccessResponse req.id result)) =
      _
    rw [if_neg hid, hlook]
    simp only [hparams, buildArgs]
    cases unreflectResult (rpcFunc.f [RVal.vCtx ⟨some req, false, true⟩]).1
        (rpcFunc.f [RVal.vCtx ⟨some req, false, true⟩]).2 <;> rfl

/-- Witness for claim C10: the Echo descriptor declares one parameter, yet
a params-free request builds the one-element context-only argument list,
shorter than the declared two-argument shape. -/
theorem empty_params_context_only_witness :
    buildArgs echoFunc ⟨none, true, false⟩ none =
      Except.ok [RVal.vCtx ⟨none, true, false⟩] ∧
    ([RVal.vCtx (⟨none, true, false⟩ : Context)]).length <
      1 + echoFunc.argNames.length :=
  ⟨empty_params_context_only.1 echoFunc ⟨none, true, false⟩,
    empty_params_context_only.2.1 echoFunc ⟨none, true, false⟩
      [RVal.vCtx ⟨none, true, false⟩] (by decide) rfl⟩

/-- Counterexample to claim C2: on the WebSocket transport a request whose
argument binding fails (two positional params against the one-parameter
Echo descriptor) gets a Failure of class InternalError, not InvalidParams
— the read routine wraps binding errors in RPCInternalError. -/
theorem ws_bind_error_class_counterexample :
    (wsHandleFrame scenarioFuncMap (Frame.request c2wsReq)).map
        RPCResponse.errClass = some (some ErrClass.internalError) ∧
    ErrClass.internalError ≠ ErrClass.invalidParams :=
  ⟨rfl, by decide⟩

/-- Claim C2 amended: a binding failure yields an InvalidParams Failure on
the HTTP transports (the JSON-RPC endpoint loop and the per-method HTTP
handler), but on the WebSocket transport the read routine wraps the same
failure in an InternalError Failure. -/
theorem bind_error_class_by_transport :
    (∀ (funcMap : List (String × RPCFunc)) (req : RPCRequest)
       (rpcFunc : RPCFunc) (e : String), req.id ≠ "" →
       lookupFunc funcMap req.method = some rpcFunc →
       rpcFunc.ws = false →
       buildArgs rpcFunc ⟨some req, true, false⟩ req.params =
         Except.error e →
       processRequest funcMap "/" req = some (RPCInvalidParamsError req.id
         ("error converting json params to arguments: " ++ e)))
    ∧ (∀ (rpcFunc : RPCFunc) (query : List (String × String)) (e : String),
        rpcFunc.ws = false →
        httpParamsToArgs rpcFunc query = Except.error e →
        makeHTTPHandler rpcFunc query = RPCInvalidParamsError ""
          ("error converting http params to arguments: " ++ e))
    ∧ (∀ (funcMap : List (String × RPCFunc)) (req : RPCRequest)
        (rpcFunc : RPCFunc) (e : String), req.id ≠ "" →
        lookupFunc funcMap req.method = some rpcFunc →
        buildArgs rpcFunc ⟨some req, false, true⟩ req.params =
          Except.error e →
        wsHandleFrame funcMap (Frame.request req) =
          some (RPCInternalError req.id
            ("error converting json params to arguments: " ++ e))) := by
  have hpath : ¬(("/" : String).length > 1) := by decide
  refine ⟨?_, ?_, ?_⟩
  · intro funcMap req rpcFunc e hid hlook hws hbind
    unfold processRequest
    rw [if_neg hid, if_neg hpath, hlook]
    simp only [hws, Bool.false_eq_true, if_neg, reduceIte, hbind]
  · intro rpcFunc query e hws hbind
    unfold makeHTTPHandler
    rw [if_neg (by simp [hws])]
    simp only [hbind]
  · intro funcMap req rpcFunc e hid hlook hbind
    show (if req.id = "" then none
      else match lookupFunc funcMap req.method with
        | none => some (RPCMethodNotFoundError req.id)
        | some rpcFunc =>
          let ctx : Context := ⟨some req, false, true⟩
          match buildArgs rpcFunc ctx req.params with
          | Except.error e => some (RPCInternalError req.id
              ("error converting json params to arguments: " ++ e))
          | Except.ok args =>
            let returns := rpcFunc.f args
            match unreflectResult returns.1 returns.2 with
            | Except.error e => some (RPCInternalError req.id e)
            | Except.ok result => some (NewRPCSuccessResponse req.id result)) =
      some (RPCInternalError req.id
        ("error converting json params to arguments: " ++ e))
    rw [if_neg hid, hlook]
    simp only [hbind]

/-- Witness for claim C2 as amended: Echo called over WebSocket with two
positional params binds with a count mismatch and the pushed Failure is
InternalError carrying the original id. -/
theorem bind_error_class_by_transport_witness :
    wsHandleFrame scenarioFuncMap (Frame.request c2wsReq) =
      some (RPCInternalError "7"
        ("error converting json params to arguments: " ++
          "expected 1 parameters, got 2")) :=
  bind_error_class_by_transport.2.2 scenarioFuncMap c2wsReq echoFunc
    "expected 1 parameters, got 2" (by decide) rfl rfl

/-- Counterexample to claim C3: the Failure Response pushed by the
WebSocket panic recovery carries the fixed id unknown — neither the
originating request id nor the empty string. -/
theorem ws_recover_id_counterexample :
    readRoutineDefer (some (PanicVal.errVal "boom")) =
      DeferOutcome.recovered (RPCInternalError "unknown" "boom") true ∧
    (RPCInternalError "unknown" "boom").respId = "unknown" ∧
    (RPCInternalError "unknown" "boom").respId ≠ "" :=
  ⟨rfl, rfl, by decide⟩

/-- Claim C3 amended: a fault recovered while processing an inbound frame
is converted into an InternalError Response delivered with the blocking
guaranteed push and the read task is respawned rather than torn down (the
connection stays open; only a normal loop exit closes it) — but the pushed
Failure carries the fixed placeholder id unknown, not the originating
request id or the empty string. -/
theorem ws_recover_internal_error_respawn :
    (∀ r : PanicVal, readRoutineDefer (some r) =
       DeferOutcome.recovered
         (RPCInternalError "unknown" (panicValToError r)) true)
    ∧ (∀ (writeChan : List RPCResponse) (r : PanicVal),
        readRoutineRecoverStep false writeChan r =
          (writeChan ++ [RPCInternalError "unknown" (panicValToError r)],
            true))
    ∧ readRoutineDefer none = DeferOutcome.normalExit true :=
  ⟨fun _ => rfl, fun _ _ => rfl, rfl⟩

/-- Counterexample to claim C4: with the reply first already pending on
the capacity-one keepalive channel, a further ping second is dropped by
the non-blocking push — the outstanding reply is the earliest received,
not the latest. -/
theorem pong_latest_counterexample :
    (setPingHandlerPush (setPingHandlerPush pongsInit "first")
        "second").buf = ["first"] ∧
    ("first" : String) ≠ "second" :=
  ⟨rfl, by decide⟩

/-- Any further non-blocking push onto the full capacity-one reply channel
leaves it unchanged. -/
theorem setPingHandlerPush_full (p m : String) :
    setPingHandlerPush ⟨1, [p]⟩ m = ⟨1, [p]⟩ :=
  rfl

/-- Claim C4 amended: bursts of ping control frames collapse to exactly
one outstanding keepalive reply, and the outstanding reply is the earliest
one received while the channel was free — every later ping arriving while
a reply is pending is dropped by the non-blocking push. -/
theorem pong_collapse_earliest :
    (∀ (p : String) (ms : List String),
       (ms.foldl setPingHandlerPush (Chan.mk 1 [p])).buf = [p])
    ∧ (∀ (m : String) (ms : List String),
        (ms.foldl setPingHandlerPush (setPingHandlerPush pongsInit m)).buf =
          [m]) := by
  have hfull : ∀ (p : String) (ms : List String),
      (ms.foldl setPingHandlerPush (Chan.mk 1 [p])).buf = [p] := by
    intro p ms
    induction ms with
    | nil => rfl
    | cons m rest ih =>
      rw [List.foldl_cons, setPingHandlerPush_full]
      exact ih
  exact ⟨hfull, fun m ms => hfull m ms⟩

end RpcServer
